import Mathlib

/-!
Verification of the HarmonyPlayer audio engine (src/harmony_player.py).

The Python source is shallowly embedded: volumes are integers, media
resources are strings, one VLC media-player instance is a record, and the
fallible backend open/parse calls inside `load_file` are an explicit outcome
parameter. Methods whose bodies are elided from the source (the file contains
"... (rest of AudioEngine methods)" and "... (rest of the MusicPlayer
implementation)" placeholders) are modelled from the spec and say so in
their doc comments.
-/

namespace HarmonyPlayer

/-- One VLC media-player instance (a backend handle): its volume, the media
bound to it, whether it is playing, and the equalizer gains pushed to it. -/
structure MediaPlayerH where
  volume : Int
  media : Option String
  playing : Bool
  eq : List Int
deriving DecidableEq

/-- State of `AudioEngine` (src/harmony_player.py, lines 106-183): the main
player, the optional fade-out player (`None` outside a pending or active
crossfade), the currently loaded media, the crossfade duration in seconds,
and whether the 100 ms crossfade timer is running. -/
structure AudioEngine where
  player : MediaPlayerH
  fade_out_player : Option MediaPlayerH
  current_media : Option String
  crossfade_duration : Nat
  crossfade_timer_active : Bool
deriving DecidableEq

/-- The all-zero "flat" equalizer preset (spec section 4.3: unknown names
fall back to a flat, all-zero preset). Ten bands, matching VLC's equalizer. -/
def flat_gains : List Int := List.replicate 10 0

/-- Modelled from the spec: the body of `AudioEngine.set_eq_preset` is elided
from the source (only its call site at line 133 remains). Spec section 4.3:
the store is a pure lookup from names to ordered gains. Only the flat entry's
content is fixed by the spec (all-zero); the other entries stand in for the
"named EQ curves" it mentions. -/
def eq_preset_table : List (String × List Int) :=
  [("flat", flat_gains),
   ("rock", [5, 4, 3, 1, 0, 0, 1, 3, 4, 5]),
   ("jazz", [3, 2, 1, 2, 0, 0, 0, 1, 2, 3])]

/-- Lower-casing of a preset name, written as a structural map over the
character list (Python's `str.lower` on ASCII preset names). -/
def lower_name (s : String) : String :=
  String.mk (s.data.map Char.toLower)

/-- Modelled from the spec (section 4.3): resolve a preset name
case-insensitively and fall back to the flat preset on a miss. -/
def resolve_preset (name : String) : List Int :=
  match eq_preset_table.find? (fun kv => kv.fst == lower_name name) with
  | some kv => kv.snd
  | none => flat_gains

/-- Modelled from the spec (section 4.3): `set_eq_preset` pushes the resolved
gains to the live handle(s) — both handles during an active crossfade. -/
def set_eq_preset (e : AudioEngine) (name : String) : AudioEngine :=
  { e with
      player := { e.player with eq := resolve_preset name },
      fade_out_player :=
        e.fade_out_player.map (fun h => { h with eq := resolve_preset name }) }

/-- Embedding of `AudioEngine.start_crossfade` (lines 173-178): start the
100 ms crossfade timer, set the fade-out player's volume to 100, set the
main player's volume to 0 and start its playback. -/
def start_crossfade (e : AudioEngine) : AudioEngine :=
  { e with
      crossfade_timer_active := true,
      fade_out_player := e.fade_out_player.map (fun h => { h with volume := 100 }),
      player := { e.player with volume := 0, playing := true } }

/-- Embedding of `AudioEngine.handle_crossfade` (lines 180-183): the body is
the single statement `pass` under the comment "Implement crossfade logic
here", so a tick leaves the engine state unchanged. -/
def handle_crossfade (e : AudioEngine) : AudioEngine := e

/-- Embedding of `AudioEngine.play` (lines 166-171): when the crossfade
duration is positive and a fade-out player exists, delegate to
`start_crossfade`; otherwise issue a direct backend play. The backend play
call is modelled as succeeding (VLC returns 0). -/
def play (e : AudioEngine) : AudioEngine × Bool :=
  if 0 < e.crossfade_duration ∧ e.fade_out_player.isSome then
    (start_crossfade e, true)
  else
    ({ e with player := { e.player with playing := true } }, true)

/-- Outcome of the fallible backend calls inside `load_file`: `media_new`
can fail to open the resource and `parse_with_options` can fail on an
unrecognized format. Both precede every state mutation in the body. -/
inductive LoadOutcome
  | openFail
  | parseFail
  | ok
deriving DecidableEq

/-- Embedding of `AudioEngine.load_file` (lines 151-164): build a media from
the path and parse its metadata; on success bind it to the player and record
it as `current_media`, returning True; any exception is caught, logged, and
the method returns False with no state mutated. -/
def load_file (e : AudioEngine) (path : String) (r : LoadOutcome) :
    AudioEngine × Bool :=
  match r with
  | .openFail => (e, false)
  | .parseFail => (e, false)
  | .ok =>
      ({ e with
          player := { e.player with media := some path },
          current_media := some path }, true)

/-- Modelled from the spec: the crossfade cancellation path. The commands
that cancel a session (`stop`, `seek`, a new track advance) are elided from
the source ("... (rest of AudioEngine methods)"). Spec section 4.2 step 5:
on cancellation, immediately release the outgoing handle, snap the incoming
handle's volume to base_volume, promote it, and cancel the tick. -/
def cancel_crossfade (e : AudioEngine) (base_volume : Int) : AudioEngine :=
  { e with
      fade_out_player := none,
      crossfade_timer_active := false,
      player := { e.player with volume := base_volume } }

/-- Number of backend handles currently held by the engine: the main player
plus the fade-out player when present. -/
def handle_count (e : AudioEngine) : Nat :=
  1 + (if e.fade_out_player.isSome then 1 else 0)

/-- Number of outgoing handles currently held by the engine. -/
def outgoing_count (e : AudioEngine) : Nat :=
  if e.fade_out_player.isSome then 1 else 0

/-- Modelled from the spec: the track-advance command handler is elided from
the source. Spec section 4.2 edge case: with crossfade duration 0 the
advance is an instant cut, a direct load plus play with no session created. -/
def advance_track_cut (e : AudioEngine) (path : String) : AudioEngine :=
  (play (load_file e path .ok).fst).fst

/-- The slice of `MusicPlayer` state that the volume and mute commands
touch: the engine volume observed through `get_volume`, and the
`last_volume` attribute, absent (`none`) until `toggle_mute` first records
a pre-mute volume (the source tests it with `hasattr`). -/
structure MusicPlayer where
  engine_volume : Int
  last_volume : Option Int
deriving DecidableEq

/-- Modelled from the spec: the body of `MusicPlayer.set_volume` is elided
from the source ("... (rest of the MusicPlayer implementation)"; only call
sites at lines 343, 484-485 and 490-497 remain). Spec sections 4.1 and 8:
the level is clamped to [0, 100] and applied to the engine; out-of-range
input is silently clamped, never raised. -/
def set_volume (p : MusicPlayer) (v : Int) : MusicPlayer :=
  { p with engine_volume := max 0 (min 100 v) }

/-- Observed volume, `audio_engine.get_volume` (body elided from the source;
modelled as reading back the engine volume). -/
def get_volume (p : MusicPlayer) : Int := p.engine_volume

/-- Embedding of `MusicPlayer.toggle_mute` (lines 490-497): when the current
volume is positive, record it in `last_volume` and set the volume to 0;
otherwise restore `last_volume` when it was ever recorded, 70 otherwise. -/
def toggle_mute (p : MusicPlayer) : MusicPlayer :=
  let current := get_volume p
  if 0 < current then
    set_volume { p with last_volume := some current } 0
  else
    set_volume p (p.last_volume.getD 70)

/-- Embedding of the Ctrl+Up volume hotkey (line 484). -/
def volume_up (p : MusicPlayer) : MusicPlayer :=
  set_volume p (min 100 (get_volume p + 5))

/-- Embedding of the Ctrl+Down volume hotkey (line 485). -/
def volume_down (p : MusicPlayer) : MusicPlayer :=
  set_volume p (max 0 (get_volume p - 5))

/-- A concrete engine about to crossfade: the user-set master volume is 60
(the playing outgoing handle sits at 60), the next track is pre-bound as the
main player, and the crossfade duration is 3 seconds. -/
def sampleEngine : AudioEngine :=
  { player :=
      { volume := 60, media := some "b.mp3", playing := false, eq := flat_gains },
    fade_out_player :=
      some { volume := 60, media := some "a.mp3", playing := true, eq := flat_gains },
    current_media := some "b.mp3",
    crossfade_duration := 3,
    crossfade_timer_active := false }

/-- A concrete settled engine with crossfade disabled (duration 0). -/
def sampleSettled : AudioEngine :=
  { player :=
      { volume := 70, media := some "a.mp3", playing := true, eq := flat_gains },
    fade_out_player := none,
    current_media := some "a.mp3",
    crossfade_duration := 0,
    crossfade_timer_active := false }

/-- Ticking any number of times changes nothing: the tick handler is the
identity on the engine state. -/
theorem handle_crossfade_iterate (n : Nat) (e : AudioEngine) :
    handle_crossfade^[n] e = e := by
  induction n with
  | zero => rfl
  | succ n ih =>
      rw [Function.iterate_succ_apply]
      exact ih

/-- C1: the spec requires that a crossfade of duration D, after D of elapsed
tick time, has ramped the incoming volume to base_volume, ramped the
outgoing volume to 0 and released the outgoing handle. In the code the tick
handler body is a stub. At the failing input (crossfade started from master
volume 60, duration 3 s, hence 30 ticks of 100 ms), all 30 ticks leave the
state unchanged: the incoming volume is still 0 (not 60), the outgoing
handle is still held at volume 100 (neither at 0 nor released), and the
timer is still running. -/
theorem crossfade_tick_stub_at_failing_input :
    handle_crossfade^[30] (start_crossfade sampleEngine) = start_crossfade sampleEngine
    ∧ (start_crossfade sampleEngine).player.volume = 0
    ∧ (start_crossfade sampleEngine).fade_out_player.map (fun h => h.volume) = some 100
    ∧ (start_crossfade sampleEngine).crossfade_timer_active = true :=
  ⟨handle_crossfade_iterate 30 _, rfl, rfl, rfl⟩

/-- C2 counterexample: at the concrete engine whose user-set master volume
is 60 at the moment the crossfade begins, `start_crossfade` sets the
outgoing handle's volume to 100, not to base_volume = 60; and the first
tick performs no ramp at all (the state is unchanged), so the tick volumes
are not base_volume * (1 - f) and base_volume * f. -/
theorem start_crossfade_not_base_volume :
    (start_crossfade sampleEngine).fade_out_player.map (fun h => h.volume) = some 100
    ∧ (100 : Int) ≠ 60
    ∧ handle_crossfade (start_crossfade sampleEngine) = start_crossfade sampleEngine :=
  ⟨rfl, by decide, rfl⟩

/-- C2 (amended): whenever a crossfade begins with a fade-out player
present, the incoming handle's volume is set to 0 and its playback is
started immediately; the outgoing handle's volume is set to the constant
100 regardless of the master volume; and no per-tick ramp takes place —
every tick leaves the engine state unchanged. -/
theorem start_crossfade_spec (e : AudioEngine)
    (h : e.fade_out_player.isSome = true) :
    (start_crossfade e).player.volume = 0
    ∧ (start_crossfade e).player.playing = true
    ∧ (start_crossfade e).fade_out_player.map (fun x => x.volume) = some 100
    ∧ ∀ n, handle_crossfade^[n] (start_crossfade e) = start_crossfade e := by
  obtain ⟨h0, hh⟩ := Option.isSome_iff_exists.mp h
  refine ⟨rfl, rfl, ?_, fun n => handle_crossfade_iterate n _⟩
  simp [start_crossfade, hh]

/-- Witness for C2 (amended) at the concrete engine with master volume 60. -/
theorem start_crossfade_spec_witness :
    (start_crossfade sampleEngine).player.volume = 0
    ∧ (start_crossfade sampleEngine).player.playing = true
    ∧ (start_crossfade sampleEngine).fade_out_player.map (fun x => x.volume) = some 100
    ∧ ∀ n, handle_crossfade^[n] (start_crossfade sampleEngine) = start_crossfade sampleEngine :=
  start_crossfade_spec sampleEngine rfl

/-- C3: cancelling an active crossfade session at any elapsed fraction
strictly between 0 and 1 (elapsed and duration given in ms, with
0 < elapsed < duration) releases the outgoing handle, snaps the incoming
handle's volume to base_volume, stops the tick, and leaves exactly one
handle with zero outgoing handles remaining. This settles the claim against
the spec-modelled cancellation path, since the cancelling commands are
elided from the source. -/
theorem cancel_crossfade_settles (e : AudioEngine)
    (base_volume elapsed duration : Int)
    (hactive : e.crossfade_timer_active = true)
    (hfade : e.fade_out_player.isSome = true)
    (h0 : 0 < elapsed) (h1 : elapsed < duration) :
    (cancel_crossfade e base_volume).fade_out_player = none
    ∧ (cancel_crossfade e base_volume).player.volume = base_volume
    ∧ (cancel_crossfade e base_volume).crossfade_timer_active = false
    ∧ handle_count (cancel_crossfade e base_volume) = 1
    ∧ outgoing_count (cancel_crossfade e base_volume) = 0 :=
  ⟨rfl, rfl, rfl, rfl, rfl⟩

/-- Witness for C3: cancel the concrete active session at base volume 60 and
elapsed fraction 1000 ms / 3000 ms = 1/3. -/
theorem cancel_crossfade_settles_witness :
    (cancel_crossfade (start_crossfade sampleEngine) 60).fade_out_player = none
    ∧ (cancel_crossfade (start_crossfade sampleEngine) 60).player.volume = 60
    ∧ (cancel_crossfade (start_crossfade sampleEngine) 60).crossfade_timer_active = false
    ∧ handle_count (cancel_crossfade (start_crossfade sampleEngine) 60) = 1
    ∧ outgoing_count (cancel_crossfade (start_crossfade sampleEngine) 60) = 0 :=
  cancel_crossfade_settles (start_crossfade sampleEngine) 60 1000 3000
    rfl rfl (by decide) (by decide)

/-- C4: for every positive volume v in the volume range, setVolume(v)
followed by toggleMute yields observed volume 0, and a second toggleMute
restores the observed volume to exactly v. -/
theorem toggle_mute_round_trip (p : MusicPlayer) (v : Int)
    (h0 : 0 < v) (h1 : v ≤ 100) :
    get_volume (toggle_mute (set_volume p v)) = 0
    ∧ get_volume (toggle_mute (toggle_mute (set_volume p v))) = v := by
  have hv : max 0 (min 100 v) = v := by omega
  constructor
  · simp [toggle_mute, set_volume, get_volume, hv, h0]
  · simp [toggle_mute, set_volume, get_volume, hv, h0]

/-- Witness for C4 at the spec's own example volume 60. -/
theorem toggle_mute_round_trip_witness :
    get_volume (toggle_mute (set_volume { engine_volume := 70, last_volume := none } 60)) = 0
    ∧ get_volume (toggle_mute (toggle_mute (set_volume { engine_volume := 70, last_volume := none } 60))) = 60 :=
  toggle_mute_round_trip { engine_volume := 70, last_volume := none } 60
    (by decide) (by decide)

/-- C5: toggling mute while the observed volume is 0 and no pre-mute volume
was ever recorded sets the volume to the fixed fallback 70. -/
theorem toggle_mute_fallback_is_70 (p : MusicPlayer)
    (hv : get_volume p = 0) (hl : p.last_volume = none) :
    get_volume (toggle_mute p) = 70 := by
  simp [toggle_mute, get_volume, set_volume, hl] at *
  simp [hv]

/-- Witness for C5 at the fresh player with volume 0 and no record. -/
theorem toggle_mute_fallback_is_70_witness :
    get_volume (toggle_mute { engine_volume := 0, last_volume := none }) = 70 :=
  toggle_mute_fallback_is_70 { engine_volume := 0, last_volume := none } rfl rfl

/-- C6: with crossfade duration 0, a track advance is an instant cut: the
direct load-plus-play switch starts the new media on the single player, the
crossfade timer is never started, no crossfade session exists, and no state
with two handles is observable at any step of the transition. -/
theorem advance_track_instant_cut (e : AudioEngine) (path : String)
    (hdur : e.crossfade_duration = 0) (hfade : e.fade_out_player = none) :
    (advance_track_cut e path).player.media = some path
    ∧ (advance_track_cut e path).player.playing = true
    ∧ (advance_track_cut e path).fade_out_player = none
    ∧ (advance_track_cut e path).crossfade_timer_active = e.crossfade_timer_active
    ∧ (load_file e path .ok).fst.fade_out_player = none
    ∧ handle_count (load_file e path .ok).fst = 1
    ∧ handle_count (advance_track_cut e path) = 1 := by
  simp [advance_track_cut, load_file, play, hdur, hfade, handle_count]

/-- Witness for C6: advancing the settled zero-duration engine to a new
track. -/
theorem advance_track_instant_cut_witness :
    (advance_track_cut sampleSettled "b.mp3").player.media = some "b.mp3"
    ∧ (advance_track_cut sampleSettled "b.mp3").player.playing = true
    ∧ (advance_track_cut sampleSettled "b.mp3").fade_out_player = none
    ∧ (advance_track_cut sampleSettled "b.mp3").crossfade_timer_active = sampleSettled.crossfade_timer_active
    ∧ (load_file sampleSettled "b.mp3" .ok).fst.fade_out_player = none
    ∧ handle_count (load_file sampleSettled "b.mp3" .ok).fst = 1
    ∧ handle_count (advance_track_cut sampleSettled "b.mp3") = 1 :=
  advance_track_instant_cut sampleSettled "b.mp3" rfl rfl

/-- C7: when the resource cannot be opened or the format is not recognized,
`load_file` returns False (a failure result, caught rather than raised) and
the engine state — including the currently loaded media — is exactly
unchanged. -/
theorem load_file_failure_recoverable (e : AudioEngine) (path : String) :
    load_file e path .openFail = (e, false)
    ∧ load_file e path .parseFail = (e, false) :=
  ⟨rfl, rfl⟩

/-- C8: for every volume input v, including values below 0 and above 100,
set_volume results in an observed volume of clamp(v, 0, 100); set_volume is
a total function (never raises) and touches nothing else. -/
theorem set_volume_clamps (p : MusicPlayer) (v : Int) :
    get_volume (set_volume p v) = max 0 (min 100 v)
    ∧ (set_volume p v).last_volume = p.last_volume :=
  ⟨rfl, rfl⟩

/-- C9: applying an unknown preset behaves identically to applying "flat":
both resolve (case-insensitively) to the all-zero flat gains, so the
resulting engine states are equal for every starting state. -/
theorem apply_preset_unknown_eq_flat (e : AudioEngine) :
    set_eq_preset e "nonexistent" = set_eq_preset e "flat" := by
  have h : resolve_preset "nonexistent" = resolve_preset "flat" := by decide
  simp [set_eq_preset, h]

/-- C10: every tick of the crossfade handler leaves the whole engine state
unchanged — it never modifies a volume, never releases the outgoing handle
and never stops the timer — so the volumes set at crossfade start (incoming
0, outgoing 100) and the running timer persist for every subsequent tick. -/
theorem handle_crossfade_frame (e : AudioEngine) (n : Nat) :
    handle_crossfade e = e
    ∧ handle_crossfade^[n] (start_crossfade e) = start_crossfade e
    ∧ (handle_crossfade^[n] (start_crossfade e)).player.volume = 0
    ∧ (handle_crossfade^[n] (start_crossfade e)).fade_out_player.map (fun h => h.volume)
        = e.fade_out_player.map (fun _ => (100 : Int))
    ∧ (handle_crossfade^[n] (start_crossfade e)).crossfade_timer_active = true := by
  refine ⟨rfl, handle_crossfade_iterate n _, ?_, ?_, ?_⟩
  · rw [handle_crossfade_iterate]
    rfl
  · rw [handle_crossfade_iterate]
    cases hfp : e.fade_out_player <;> simp [start_crossfade, hfp]
  · rw [handle_crossfade_iterate]
    rfl

end HarmonyPlayer
